import Mathlib

/-!
Shallow embedding of the iv2c core (frame sources, image pipeline, playback
scheduler) from `src/iv2c/src/{frames,pipeline,render}.rs`, together with
theorems settling the spec claims about it.

Conventions:
* Rust `usize`/`u64`/`u128` arithmetic is modelled over `Nat`, with explicit
  `% 2^w` at the places where the source performs a narrowing cast.  Wrapping
  semantics (release builds) is used at the one place an arithmetic overflow
  is reachable; the comment at that definition records this.
* Fallible operations (a Rust expression that can panic, such as `%` by zero)
  are modelled with `Option`: `none` models the panic.
* Durations and instants are nanosecond counts (`Nat`), matching
  `Duration::as_nanos` (`Instant::duration_since` saturates at zero, which
  `Nat` subtraction models exactly).
* Decoded frames are abstract values of a type parameter `α` where only their
  identity matters, and concrete `DynamicImage` grids where pixel content
  matters.  External collaborators (video capture, the `fast_image_resize`
  kernel, the `image` crate's luma conversion) are modelled at their interface
  boundary, as the spec prescribes.
-/

namespace IV2C

/-! ## frames.rs: `FrameIterator`

The `Video` variant wraps an external, stateful OpenCV capture handle; its
behaviour is entirely delegated to that collaborator and is out of the core's
scope, so the embedding covers the two in-memory variants the claims are
about.  `Image` holds `Option<DynamicImage>`; `AnimatedImage` holds a frame
vector and a cursor. -/

inductive FrameIterator (α : Type) where
  | Image : Option α → FrameIterator α
  | AnimatedImage : List α → Nat → FrameIterator α
  deriving Repr, DecidableEq

namespace FrameIterator

/-- `Iterator::next` from `frames.rs` (lines 30–47), returning the yielded
item together with the successor state.  `Image` uses `Option::take`;
`AnimatedImage` returns `None` exactly when the cursor equals the length,
otherwise yields `frames.get(cursor)` and increments the cursor. -/
def next : FrameIterator α → Option α × FrameIterator α
  | Image img => (img, Image none)
  | AnimatedImage frames cur =>
      if cur = frames.length then
        (none, AnimatedImage frames cur)
      else
        (frames.get? cur, AnimatedImage frames (cur + 1))

/-- `FrameIterator::skip_frames` (frames.rs lines 51–71) for the in-memory
variants.  For `Image` it is a no-op.  For `AnimatedImage` the source runs
`*current_frame = (*current_frame + n) % frames.len()`; Rust `%` by zero
panics, modelled here by `none`.  (The `Video` arm performs up to `n` raw
pulls on the external capture handle and never panics.) -/
def skip_frames : FrameIterator α → Nat → Option (FrameIterator α)
  | Image img, _ => some (Image img)
  | AnimatedImage frames cur, n =>
      if frames.length = 0 then none
      else some (AnimatedImage frames ((cur + n) % frames.length))

/-- `FrameIterator::reset` (frames.rs lines 73–85): no-op for `Image`,
cursor back to `0` for `AnimatedImage`. -/
def reset : FrameIterator α → FrameIterator α
  | Image img => Image img
  | AnimatedImage frames _ => AnimatedImage frames 0

/-- The cursor of an `AnimatedImage`; `0` for the other variants (used only
to state cursor facts about `AnimatedImage`). -/
def cursor : FrameIterator α → Nat
  | Image _ => 0
  | AnimatedImage _ cur => cur

end FrameIterator

/-! ## Images

A decoded frame (`image::DynamicImage`) is a stored width/height pair plus a
row-major grid of RGB pixels.  The `image` crate's colour conversions
(`into_luma8`, `into_rgb8`) are external collaborators; their interface
behaviour is modelled below. -/

structure Pixel where
  r : Nat
  g : Nat
  b : Nat
  deriving Repr, DecidableEq

structure DynamicImage where
  width : Nat
  height : Nat
  rows : List (List Pixel)
  deriving Repr, DecidableEq

/-- Luma conversion performed by the external `image` crate
(`DynamicImage::into_luma8`): integer weights `(2126, 7152, 722) / 10000`.
The concrete scenarios below use grey pixels (`r = g = b`), on which any
weighted average with weights summing to `10000` returns the grey value, so
no claim depends on the exact weights. -/
def Pixel.luma (p : Pixel) : Nat :=
  (2126 * p.r + 7152 * p.g + 722 * p.b) / 10000

/-- The luma grid of a frame (`procimage.clone().into_luma8()`). -/
def DynamicImage.into_luma8 (img : DynamicImage) : List (List Nat) :=
  img.rows.map (fun row => row.map Pixel.luma)

/-- The per-pixel 3-byte groups of `procimage.into_rgb8().to_vec()`:
`rgb_info.chunks(3)` regrouped.  Since the flat vector is the concatenation
of exact 3-byte pixel groups, `chunks(3)` recovers precisely these groups. -/
def DynamicImage.rgb_chunks (img : DynamicImage) : List (List Nat) :=
  img.rows.flatten.map (fun p => [p.r, p.g, p.b])

/-- The flat RGB byte vector `procimage.into_rgb8().to_vec()`. -/
def DynamicImage.into_rgb8_vec (img : DynamicImage) : List Nat :=
  img.rgb_chunks.flatten

/-! ## pipeline.rs: `Resolution` and `ImagePipeline` -/

inductive Resolution where
  | Fixed : Nat → Nat → Resolution
  | Divisor : Nat → Resolution
  deriving Repr, DecidableEq

/-- `Resolution::calc` (pipeline.rs lines 13–18): a `Fixed` resolution is
returned as is; `Divisor d` divides the native dimensions of the incoming
frame.  (Rust `u32` division by `d = 0` panics; every use in the claims has
`d ≥ 1`, where Lean's `Nat` division agrees with Rust.) -/
def Resolution.calc : Resolution → DynamicImage → Nat × Nat
  | Resolution.Fixed w h, _ => (w, h)
  | Resolution.Divisor d, img => (img.width / d, img.height / d)

structure ImagePipeline where
  resolution : Resolution
  char_map : List Char
  new_lines : Bool

/-- `ImagePipeline::set_resolution` (pipeline.rs lines 39–42). -/
def ImagePipeline.set_resolution (p : ImagePipeline) (resolution : Resolution) :
    ImagePipeline :=
  { p with resolution := resolution }

/-- The glyph index computed inside `to_ascii` (pipeline.rs line 82):
`self.char_map.len() * lum as usize / (u8::MAX as usize + 1)`. -/
def lookup_idx (len lum : Nat) : Nat :=
  len * lum / 256

/-- The glyph characters of the rows of a luma grid, with a CR/LF pair pushed
after every row except the last when `new_lines` is set (pipeline.rs lines
79–90: the pair is pushed while `y < height - 1`).  Rust `char_map[i]` panics
out of bounds, which only an empty glyph table can cause — a construction-time
precondition violation per the spec; `List.getD` is used here and
`lookup_idx_lt` below shows the default is never consulted for a non-empty
table. -/
def asciiRows (char_map : List Char) (new_lines : Bool) : List (List Nat) → List Char
  | [] => []
  | [row] => row.map (fun lum => char_map.getD (lookup_idx char_map.length lum) ' ')
  | row :: rest =>
      row.map (fun lum => char_map.getD (lookup_idx char_map.length lum) ' ')
        ++ (if new_lines then ['\r', '\n'] else [])
        ++ asciiRows char_map new_lines rest

/-- `ImagePipeline::to_ascii` (pipeline.rs lines 74–93), taking the luma grid
of the (already resized) frame. -/
def ImagePipeline.to_ascii (p : ImagePipeline) (input : List (List Nat)) : String :=
  String.mk (asciiRows p.char_map p.new_lines input)

/-- Nearest-neighbour source coordinate: destination pixel centre mapped back
to the source grid, `floor((x + 1/2) * src / dst)`. -/
def nearestIndex (src dst x : Nat) : Nat :=
  (2 * x + 1) * src / (2 * dst)

/-- `ImagePipeline::resize` (pipeline.rs lines 44–72).  The target size comes
from `Resolution::calc` against the incoming frame, and the destination
buffer is allocated at exactly `dst_w × dst_h` pixels
(`fir::images::Image::new(dst_w, dst_h, U8x3)`) before the external
`fast_image_resize` kernel fills it with `ResizeAlg::Nearest`.  The kernel is
an out-of-scope collaborator (spec §1: "the resize kernel implementation
itself"); it is modelled as nearest-neighbour centre sampling.  The claims
below depend only on the dimensions of the produced buffer, which the source
fixes by construction.  The `Result` error paths of the source
(`from_vec_u8`, the resizer call, `from_vec`) can only be triggered by the
external backend — the buffer lengths match by construction — so the model is
total here and the scheduler embedding treats render failures abstractly. -/
def ImagePipeline.resize (p : ImagePipeline) (img : DynamicImage) : DynamicImage :=
  let dims := p.resolution.calc img
  { width := dims.1
    height := dims.2
    rows := (List.range dims.2).map (fun y =>
      (List.range dims.1).map (fun x =>
        (img.rows.getD (nearestIndex img.height dims.2 y) []).getD
          (nearestIndex img.width dims.1 x) ⟨0, 0, 0⟩)) }

/-! ## error.rs and render.rs -/

inductive Error where
  | Application : String → Error
  | Pipeline : String → Error
  deriving Repr, DecidableEq

structure RenderFrame where
  text : String
  colors : List Nat
  deriving Repr, DecidableEq

structure RenderOptions where
  fps : ℚ
  w_mod : Nat
  loop_playback : Bool

structure RendererState where
  pipeline : ImagePipeline
  media : FrameIterator DynamicImage
  last_frame : Option DynamicImage
  anchor : Nat

def u32MOD : Nat := 4294967296

def u64MOD : Nat := 18446744073709551616

def u64MAX : Nat := 18446744073709551615

/-- `Renderer::target_frame_duration` (render.rs lines 212–215), in
nanoseconds.  The source computes
`Duration::from_nanos((1_000_000_000_f64 / fps.max(0_f64)) as u64)` with
`fps : f64`, modelled as a rational.  For `fps ≤ 0`: `fps.max(0.0)` is
exactly `0.0`, the IEEE-754 quotient is `+∞`, and Rust's saturating
float-to-integer cast yields `u64::MAX` — each step is exact, no rounding is
involved.  For `fps > 0` the cast truncates toward zero and saturates at
`u64::MAX`; the model truncates the exact rational quotient, which agrees
with the `f64` computation whenever the quotient is exactly representable
(true at every fps a claim below uses).  The truncation of the positive
quotient is written on the numerator/denominator representation:
`⌊10^9 / (num/den)⌋ = ⌊10^9 · den / num⌋` for `num > 0`. -/
def target_frame_duration_nanos (fps : ℚ) : Nat :=
  if fps ≤ 0 then u64MAX
  else min ((1000000000 * (fps.den : Int) / fps.num).toNat) u64MAX

/-- The `frames_to_skip` computation of the due branch (render.rs line 204):
`(elapsed_time.as_nanos() / target_frame_duration.as_nanos()) as usize - 1`
— a `u128` division, a truncating `u128 → usize` cast (modulo `2^64`), and a
subtraction, written with wrapping (release-build) semantics since
`elapsed / target` can only reach a multiple of `2^64` for physically
unreachable elapsed times. -/
def frames_to_skip_of (elapsed target : Nat) : Nat :=
  ((elapsed / target) % u64MOD + (u64MOD - 1)) % u64MOD

/-- The amount added to the time anchor in the due branch:
`target_frame_duration * (frames_to_skip as u32 + 1)` (render.rs line 205),
with the truncating `usize → u32` cast and the wrapping `u32` addition
written out. -/
def anchor_advance (elapsed target : Nat) : Nat :=
  target * ((frames_to_skip_of elapsed target % u32MOD + 1) % u32MOD)

/-- `Renderer::time_to_send_next_frame` (render.rs lines 198–210) on the
elapsed and target durations in nanoseconds.  Returns whether a frame is
due, the computed `frames_to_skip`, and the nanoseconds added to the time
anchor; `none` models the Rust panic of the `u128` division when the target
duration is 0 ns (reachable for fps above 1e9).  The `Duration × u32`
multiplication inside `anchor_advance` is checked in Rust, but its overflow
would require the elapsed duration itself to exceed `Duration::MAX`, which
`as_nanos` of a real duration cannot produce. -/
def time_to_send_next_frame (elapsed target : Nat) : Option (Bool × Nat × Nat) :=
  if target ≤ elapsed then
    if target = 0 then none
    else some (true, frames_to_skip_of elapsed target, anchor_advance elapsed target)
  else
    some (false, 0, 0)

/-- The `new_lines` re-chunking loop of `Renderer::render_frame` (render.rs
lines 226–231): walk the 3-byte pixel groups with their index `i`, copying
each and appending six zero bytes whenever `(i + 1) % width == 0` — note the
condition also fires at the end of the **last** row.  (Rust `%` by
`width = 0` cannot be hit from `render_frame`: a zero-width image has no
pixel groups, so the loop body never runs.) -/
def pad_chunks (width : Nat) : List (List Nat) → Nat → List Nat
  | [], _ => []
  | c :: rest, i =>
      c ++ (if (i + 1) % width = 0 then [0, 0, 0, 0, 0, 0] else [])
        ++ pad_chunks width rest (i + 1)

/-- `Renderer::render_frame` (render.rs lines 217–235): resize the frame via
the pipeline, take the luma grid and the flat RGB bytes of the result; when
`new_lines` is set, rebuild the colour buffer with `pad_chunks`.  The source
returns `Result<RenderFrame, Error>` whose only failure source is the
external resize backend (see `ImagePipeline.resize`); the model is total
here, and the scheduler below is generic in the render function so those
failure paths stay visible to the error-handling claims. -/
def render_frame (p : ImagePipeline) (frame : DynamicImage) : RenderFrame :=
  let procimage := p.resize frame
  let grayimage := procimage.into_luma8
  if p.new_lines then
    { text := p.to_ascii grayimage
      colors := pad_chunks procimage.width procimage.rgb_chunks 0 }
  else
    { text := p.to_ascii grayimage
      colors := procimage.into_rgb8_vec }

/-- `Renderer::render_current_frame` (render.rs lines 237–260), generic in
the render function `rf` (the source calls `self.render_frame`).  On
`Some frame`: store it as `last_frame` and return the rendered result,
discarding an `Err` (`if let Ok(...)`).  On `None`: re-render `last_frame`
when present, again discarding errors; `last_frame` is unchanged.  Returns
the new `last_frame` and the produced frame. -/
def render_current_frame
    (rf : ImagePipeline → DynamicImage → Except Error RenderFrame)
    (p : ImagePipeline) (last : Option DynamicImage)
    (frame : Option DynamicImage) :
    Option DynamicImage × Option RenderFrame :=
  match frame with
  | some f => (some f, (rf p f).toOption)
  | none =>
      match last with
      | some lf => (last, (rf p lf).toOption)
      | none => (last, none)

/-- One iteration of the `while` loop in `Renderer::run` (render.rs lines
154–179), before the callback.  `now` is this iteration's wall-clock reading
in nanoseconds; `Instant::elapsed` is `now - anchor`, saturating at zero
exactly like `Nat` subtraction.  The due-check advances the anchor
(`should_process_frame` / `time_to_send_next_frame` mutate `time_count`),
then the source optionally skips, pulls the next frame, and — when the pull
returns `None` with loop playback enabled — rewinds the anchor by one target
duration and resets the source, but pulls **no** replacement frame: `f`
stays `None`, so `render_current_frame` falls back to `last_frame`.  Returns
`none` where the Rust panics (`skip_frames` on an empty frame list, or a
0 ns target duration); otherwise the new state, the produced frame, and
`should_render`. -/
def tick (opts : RenderOptions) (allow_frame_skip : Bool)
    (rf : ImagePipeline → DynamicImage → Except Error RenderFrame)
    (now : Nat) (s : RendererState) :
    Option (RendererState × Option RenderFrame × Bool) :=
  let target := target_frame_duration_nanos opts.fps
  match time_to_send_next_frame (now - s.anchor) target with
  | none => none
  | some (should_process, frames_to_skip, advance) =>
    if should_process then
      let anchor1 := s.anchor + advance
      let mediaSkipped :=
        if allow_frame_skip ∧ 0 < frames_to_skip then s.media.skip_frames frames_to_skip
        else some s.media
      match mediaSkipped with
      | none => none
      | some media1 =>
        let pulled := media1.next
        let anchor2 := if opts.loop_playback ∧ pulled.1 = none then anchor1 - target
                       else anchor1
        let media3 := if opts.loop_playback ∧ pulled.1 = none then pulled.2.reset
                      else pulled.2
        let rendered := render_current_frame rf s.pipeline s.last_frame pulled.1
        some ({ s with media := media3, last_frame := rendered.1, anchor := anchor2 },
              rendered.2, true)
    else
      some (s, none, false)

/-- The callback-and-loop structure of `Renderer::run` (render.rs lines
146–182).  The callback receives the produced frame, `should_render`, and
the pipeline (mutable in the source — it may call `set_resolution`), and
returns the continue flag plus the updated pipeline.  `nows j` supplies the
wall-clock reading of the `j`-th iteration.  Fuel-based: `none` means the
loop was still running after `fuel` iterations, or a tick panicked; a `some`
result is the value `run` returns — the source body constructs only
`Ok(())`. -/
def run (opts : RenderOptions) (allow_frame_skip : Bool)
    (rf : ImagePipeline → DynamicImage → Except Error RenderFrame)
    (cb : Option RenderFrame → Bool → ImagePipeline → Bool × ImagePipeline)
    (nows : Nat → Nat) :
    Nat → Nat → RendererState → Option (Except Error Unit)
  | 0, _, _ => none
  | fuel + 1, j, s =>
    match tick opts allow_frame_skip rf (nows j) s with
    | none => none
    | some (s1, frame, should_render) =>
      let cbr := cb frame should_render s1.pipeline
      if cbr.1 then
        run opts allow_frame_skip rf cb nows fuel (j + 1) { s1 with pipeline := cbr.2 }
      else
        some (Except.ok ())

/-- Scenario driver: iterate `tick` over a list of clock readings with a
callback that always continues, collecting the frame produced at each
iteration — the observable the spec's loop-replay scenario talks about. -/
def runTicks (opts : RenderOptions) (allow_frame_skip : Bool)
    (rf : ImagePipeline → DynamicImage → Except Error RenderFrame) :
    List Nat → RendererState → Option (RendererState × List (Option RenderFrame))
  | [], s => some (s, [])
  | now :: rest, s =>
    match tick opts allow_frame_skip rf now s with
    | none => none
    | some (s1, frame, _) =>
      match runTicks opts allow_frame_skip rf rest s1 with
      | none => none
      | some (s2, frames) => some (s2, frame :: frames)

/-! ## Concrete scenario inputs -/

/-- A 1×1 grey frame of luminance `v`: on grey pixels the luma conversion
returns `v` exactly. -/
def greyFrame (v : Nat) : DynamicImage :=
  ⟨1, 1, [[⟨v, v, v⟩]]⟩

/-- Loop-replay scenario pipeline: 1×1 fixed target, four-glyph table, no
line terminators.  Frames of luminance 0, 64, 128 render to the
distinguishable texts "0", "1", "2". -/
def loopPipeline : ImagePipeline :=
  ⟨Resolution.Fixed 1 1, ['0', '1', '2', '3'], false⟩

/-- Loop-replay scenario options: fps 1 (target duration 1 s = 10^9 ns),
`loop_playback = true`. -/
def loopOptions : RenderOptions :=
  ⟨1, 1, true⟩

/-- Loop-replay scenario initial state: a 3-frame `FrameList` at cursor 0,
no last frame, time anchor 0. -/
def loopState : RendererState :=
  ⟨loopPipeline,
   FrameIterator.AnimatedImage [greyFrame 0, greyFrame 64, greyFrame 128] 0,
   none, 0⟩

/-- The render function of the source (`self.render_frame`), whose model is
total: every call succeeds. -/
def renderOk : ImagePipeline → DynamicImage → Except Error RenderFrame :=
  fun p img => Except.ok (render_frame p img)

/-- A render function that fails on every frame, modelling a tick on which
the external resize backend reports an error. -/
def rfFail : ImagePipeline → DynamicImage → Except Error RenderFrame :=
  fun _ _ => Except.error (Error.Pipeline "resize backend failure")

/-- A callback that immediately requests termination. -/
def cbStop : Option RenderFrame → Bool → ImagePipeline → Bool × ImagePipeline :=
  fun _ _ p => (false, p)

/-- A concrete 4×4 source frame (each pixel distinct). -/
def frame4x4 : DynamicImage :=
  ⟨4, 4, (List.range 4).map (fun y => (List.range 4).map (fun x => ⟨x, y, 0⟩))⟩

/-! ## Theorems for the claims -/

/-- Helper: the glyph index is in bounds for every non-empty glyph table and
every 8-bit luminance. -/
theorem lookup_idx_lt (L v : Nat) (hL : 1 ≤ L) (hv : v ≤ 255) :
    lookup_idx L v < L := by
  have h1 : L * v < L * 256 :=
    lt_of_le_of_lt (Nat.mul_le_mul_left L hv)
      (mul_lt_mul_of_pos_left (by norm_num) (by omega))
  exact (Nat.div_lt_iff_lt_mul (by norm_num)).mpr h1

/-- Claim C4 counterexample: a 1-frame `FrameList` at the exhausted cursor
position 1 (cursor ranges over `[0, N]`): `skip_frames(N) = skip_frames(1)`
moves the cursor to `(1 + 1) % 1 = 0 ≠ 1`, so it is not a no-op on cursor
position there. -/
theorem C4_counterexample :
    (FrameIterator.skip_frames (FrameIterator.AnimatedImage ([7] : List Nat) 1) 1).map
        FrameIterator.cursor = some 0 ∧ (0 : Nat) ≠ 1 := by
  decide

/-- Claim C4 (amended): for every `FrameList` of length `N ≥ 1`, every cursor
in `[0, N]` and every `k`, `skip_frames(k)` succeeds and sets the cursor to
`(cursor + k) % N`; `skip_frames(N)` leaves the cursor unchanged for every
cursor in `[0, N - 1]` — at the exhausted position `cursor = N` it wraps the
cursor to `0` instead (see the counterexample). -/
theorem C4_skip_frames_mod {α : Type} (frames : List α) (cur k : Nat)
    (hN : 1 ≤ frames.length) (_hcur : cur ≤ frames.length) :
    FrameIterator.skip_frames (FrameIterator.AnimatedImage frames cur) k
      = some (FrameIterator.AnimatedImage frames ((cur + k) % frames.length)) ∧
    (cur < frames.length →
      FrameIterator.skip_frames (FrameIterator.AnimatedImage frames cur) frames.length
        = some (FrameIterator.AnimatedImage frames cur)) := by
  constructor
  · simp only [FrameIterator.skip_frames]
    rw [if_neg (by omega)]
  · intro hlt
    simp only [FrameIterator.skip_frames]
    rw [if_neg (by omega)]
    rw [Nat.add_mod_right, Nat.mod_eq_of_lt hlt]

/-- Witness for C4 at `frames = [5, 6]`, `cur = 1`, `k = 3`:
`(1 + 3) % 2 = 0`, and `skip_frames(2)` at cursor `1 < 2` is a no-op. -/
theorem C4_skip_frames_mod_witness :
    FrameIterator.skip_frames (FrameIterator.AnimatedImage ([5, 6] : List Nat) 1) 3
      = some (FrameIterator.AnimatedImage [5, 6] ((1 + 3) % ([5, 6] : List Nat).length)) ∧
    (1 < ([5, 6] : List Nat).length →
      FrameIterator.skip_frames (FrameIterator.AnimatedImage ([5, 6] : List Nat) 1)
          ([5, 6] : List Nat).length
        = some (FrameIterator.AnimatedImage [5, 6] 1)) :=
  C4_skip_frames_mod [5, 6] 1 3 (by decide) (by decide)

/-- Claim C8: a `SingleImage` source yields its held frame exactly once (the
first `next()` returns the frame and leaves the exhausted state
`Image(None)`), and from the exhausted state every one of arbitrarily many
further `next()` calls returns `None` with the state unchanged — `next` is a
total function on this variant, so no call panics and the frame is never
resurrected. -/
theorem C8_single_image_once {α : Type} (f : α) (k : Nat) :
    FrameIterator.next (FrameIterator.Image (some f))
      = (some f, FrameIterator.Image none) ∧
    (fun s => (FrameIterator.next s).2)^[k] (FrameIterator.Image (none : Option α))
      = FrameIterator.Image none ∧
    FrameIterator.next
        ((fun s => (FrameIterator.next s).2)^[k] (FrameIterator.Image (none : Option α)))
      = (none, FrameIterator.Image none) := by
  have hiter : ∀ m : Nat,
      (fun s => (FrameIterator.next s).2)^[m] (FrameIterator.Image (none : Option α))
        = FrameIterator.Image none := by
    intro m
    induction m with
    | zero => rfl
    | succ n ih => rw [Function.iterate_succ_apply', ih]; rfl
  exact ⟨rfl, hiter k, by rw [hiter k]; rfl⟩

/-- Claim C10: on an `AnimatedImage` (`FrameList`) with an empty frames
vector, `next()` returns `None` at every cursor, while `skip_frames(n)`
evaluates `(cursor + n) % 0` — a Rust panic, modelled by `none` — for every
`n`; on any non-empty frames vector `skip_frames` always succeeds, so it is
total exactly under the non-emptiness precondition. -/
theorem C10_empty_frame_list {α : Type} (n cur : Nat) :
    (FrameIterator.next (FrameIterator.AnimatedImage ([] : List α) cur)).1 = none ∧
    FrameIterator.skip_frames (FrameIterator.AnimatedImage ([] : List α) cur) n = none ∧
    (∀ frames : List α, 1 ≤ frames.length →
      (FrameIterator.skip_frames (FrameIterator.AnimatedImage frames cur) n).isSome) := by
  refine ⟨?_, ?_, ?_⟩
  · simp only [FrameIterator.next]
    rcases Nat.eq_zero_or_pos cur with h | h
    · simp [h]
    · rw [if_neg (by simp; omega)]
      simp
  · simp only [FrameIterator.skip_frames]
    simp
  · intro frames hlen
    simp only [FrameIterator.skip_frames]
    rw [if_neg (by omega)]
    rfl

/-- Witness for C10 at `n = 5`, `cur = 2`, and the non-empty list `[3]`. -/
theorem C10_empty_frame_list_witness :
    FrameIterator.skip_frames (FrameIterator.AnimatedImage ([] : List Nat) 2) 5 = none ∧
    (FrameIterator.skip_frames (FrameIterator.AnimatedImage ([3] : List Nat) 2) 5).isSome :=
  ⟨(C10_empty_frame_list 5 2).2.1, (C10_empty_frame_list 5 2).2.2 [3] (by decide)⟩

/-- Claim C5 counterexample: for a glyph table of length `L = 257`, luminance
`255` selects index `257 * 255 / 256 = 255`, which is not `L - 1 = 256`. -/
theorem C5_counterexample :
    lookup_idx 257 255 = 255 ∧ (255 : Nat) ≠ 257 - 1 := by
  decide

/-- Claim C5 (amended): for every luminance `v ∈ [0, 255]` and glyph table of
length `L ≥ 1`, `to_ascii` selects the character at index
`floor(L * v / 256)`; this index always lies in `[0, L - 1]`, `v = 0` gives
index `0` for every `L`, and `v = 255` gives index `L - 1` for every
`L ≤ 256` (for `L ≥ 257` the top index is smaller — see the
counterexample). -/
theorem C5_lookup_index (p : ImagePipeline) (v : Nat)
    (hv : v ≤ 255) (hL : 1 ≤ p.char_map.length) :
    lookup_idx p.char_map.length v < p.char_map.length ∧
    lookup_idx p.char_map.length 0 = 0 ∧
    (p.char_map.length ≤ 256 →
      lookup_idx p.char_map.length 255 = p.char_map.length - 1) ∧
    p.to_ascii [[v]]
      = String.mk [p.char_map.getD (lookup_idx p.char_map.length v) ' '] := by
  refine ⟨lookup_idx_lt _ _ hL hv, ?_, ?_, rfl⟩
  · simp [lookup_idx]
  · intro h256
    unfold lookup_idx
    omega

/-- Witness for C5 at the two-glyph pipeline and `v = 200`:
`2 * 200 / 256 = 1`. -/
theorem C5_lookup_index_witness :
    lookup_idx 2 200 < 2 ∧
    lookup_idx 2 0 = 0 ∧
    (2 ≤ 256 → lookup_idx 2 255 = 2 - 1) ∧
    (ImagePipeline.mk (Resolution.Fixed 1 1) ['a', 'b'] false).to_ascii [[200]]
      = String.mk [(['a', 'b'] : List Char).getD (lookup_idx 2 200) ' '] :=
  C5_lookup_index (ImagePipeline.mk (Resolution.Fixed 1 1) ['a', 'b'] false) 200
    (by decide) (by decide)

/-- Claim C2, code behaviour at the failing input: for every fps ≤ 0 the
computed target frame duration is `u64::MAX` nanoseconds (about 584 years),
not an effectively-zero duration — `fps.max(0.0)` is exactly `0.0`,
`1e9 / 0.0` is `+∞`, and the saturating `f64 → u64` cast yields `u64::MAX`.
Consequently, for every elapsed time below `u64::MAX` ns the due-check
returns `(false, 0)` and no frame is ever rendered: the opposite of "render
as fast as possible, no pacing delay", and contrary to the source's own
comment "if negative, will have no frame duration (instant)". -/
theorem C2_fps_nonpositive_never_due (fps : ℚ) (elapsed : Nat)
    (hfps : fps ≤ 0) (helapsed : elapsed < u64MAX) :
    target_frame_duration_nanos fps = u64MAX ∧
    time_to_send_next_frame elapsed (target_frame_duration_nanos fps)
      = some (false, 0, 0) := by
  have h1 : target_frame_duration_nanos fps = u64MAX := by
    unfold target_frame_duration_nanos
    rw [if_pos hfps]
  refine ⟨h1, ?_⟩
  rw [h1]
  unfold time_to_send_next_frame
  rw [if_neg (by omega)]

/-- Witness for C2 at `fps = -3` and one millisecond of elapsed time. -/
theorem C2_fps_nonpositive_never_due_witness :
    target_frame_duration_nanos (-3) = u64MAX ∧
    time_to_send_next_frame 1000000 (target_frame_duration_nanos (-3))
      = some (false, 0, 0) :=
  C2_fps_nonpositive_never_due (-3) 1000000 (by norm_num)
    (by unfold u64MAX; norm_num)

/-- Claim C6 counterexample: `D = 1` ns (fps = 10^9) and
`elapsed = 2^32 = k * D + r` with `k = 2^32`, `r = 0` — about 4.3 seconds of
stall.  `frames_to_skip = 2^32 - 1 = k - 1` still holds, but the
`usize → u32` cast in `target * (frames_to_skip as u32 + 1)` wraps
`(2^32 - 1) + 1` to `0`, so the anchor advances by `0` ns, not
`k * D = 2^32` ns. -/
theorem C6_counterexample :
    time_to_send_next_frame 4294967296 1 = some (true, 4294967296 - 1, 0) ∧
    (0 : Nat) ≠ 4294967296 * 1 := by
  decide

/-- Claim C6 (amended): for every target duration `D > 0` and every tick
whose elapsed time is `k * D + r` with `0 ≤ r < D` and `1 ≤ k < 2^32`, the
scheduler computes `frames_to_skip = k - 1` and advances the time anchor by
exactly `k * D`.  For `k ≥ 2^32` the `usize → u32` cast truncates and the
advance is wrong — see the counterexample at `k = 2^32`, `D = 1`. -/
theorem C6_pacing (D k r : Nat) (hD : 0 < D) (hr : r < D) (hk : 1 ≤ k)
    (hk32 : k < 4294967296) :
    time_to_send_next_frame (k * D + r) D
      = some (true, k - 1, k * D) := by
  have hq : (k * D + r) / D = k := by
    rw [Nat.add_comm, Nat.add_mul_div_right r k hD, Nat.div_eq_of_lt hr,
      Nat.zero_add]
  have hge : D ≤ k * D + r := by
    have h2 : D ≤ k * D := by
      calc D = 1 * D := (Nat.one_mul D).symm
        _ ≤ k * D := Nat.mul_le_mul_right D hk
    omega
  have hfts : frames_to_skip_of (k * D + r) D = k - 1 := by
    unfold frames_to_skip_of
    rw [hq]
    unfold u64MOD
    omega
  have hadv : anchor_advance (k * D + r) D = k * D := by
    unfold anchor_advance
    rw [hfts]
    have h3 : ((k - 1) % u32MOD + 1) % u32MOD = k := by
      unfold u32MOD
      omega
    rw [h3, Nat.mul_comm]
  unfold time_to_send_next_frame
  rw [if_pos hge, if_neg (by omega), hfts, hadv]

/-- Witness for C6 at `D = 5`, `k = 3`, `r = 2` (elapsed 17 ns): two frames
skipped would be wrong — `frames_to_skip = 2`, anchor advance `15` ns. -/
theorem C6_pacing_witness :
    time_to_send_next_frame (3 * 5 + 2) 5 = some (true, 3 - 1, 3 * 5) :=
  C6_pacing 5 3 2 (by decide) (by decide) (by decide) (by decide)

/-- Claim C9: for every glyph table and line-terminator flag, resizing a 4×4
source frame with `Resolution::Divisor(2)` produces a 2×2 output buffer
(2 rows of 2 pixels), and resizing with `Resolution::Fixed(10, 5)` produces
a 10×5 output buffer for every source frame regardless of its native
size. -/
theorem C9_resize_dims (img img4 : DynamicImage) (cm : List Char) (nl : Bool)
    (h4w : img4.width = 4) (h4h : img4.height = 4) :
    (((ImagePipeline.mk (Resolution.Divisor 2) cm nl).resize img4).width = 2 ∧
     ((ImagePipeline.mk (Resolution.Divisor 2) cm nl).resize img4).height = 2 ∧
     ((ImagePipeline.mk (Resolution.Divisor 2) cm nl).resize img4).rows.length = 2 ∧
     ∀ row ∈ ((ImagePipeline.mk (Resolution.Divisor 2) cm nl).resize img4).rows,
       row.length = 2) ∧
    (((ImagePipeline.mk (Resolution.Fixed 10 5) cm nl).resize img).width = 10 ∧
     ((ImagePipeline.mk (Resolution.Fixed 10 5) cm nl).resize img).height = 5 ∧
     ((ImagePipeline.mk (Resolution.Fixed 10 5) cm nl).resize img).rows.length = 5 ∧
     ∀ row ∈ ((ImagePipeline.mk (Resolution.Fixed 10 5) cm nl).resize img).rows,
       row.length = 10) := by
  simp [ImagePipeline.resize, Resolution.calc, h4w, h4h]

/-- Witness for C9 at the concrete 4×4 frame and a 1×1 grey frame. -/
theorem C9_resize_dims_witness :
    (((ImagePipeline.mk (Resolution.Divisor 2) [] false).resize frame4x4).width = 2 ∧
     ((ImagePipeline.mk (Resolution.Divisor 2) [] false).resize frame4x4).height = 2 ∧
     ((ImagePipeline.mk (Resolution.Divisor 2) [] false).resize frame4x4).rows.length = 2 ∧
     ∀ row ∈ ((ImagePipeline.mk (Resolution.Divisor 2) [] false).resize frame4x4).rows,
       row.length = 2) ∧
    (((ImagePipeline.mk (Resolution.Fixed 10 5) [] false).resize (greyFrame 0)).width = 10 ∧
     ((ImagePipeline.mk (Resolution.Fixed 10 5) [] false).resize (greyFrame 0)).height = 5 ∧
     ((ImagePipeline.mk (Resolution.Fixed 10 5) [] false).resize (greyFrame 0)).rows.length
        = 5 ∧
     ∀ row ∈ ((ImagePipeline.mk (Resolution.Fixed 10 5) [] false).resize (greyFrame 0)).rows,
       row.length = 10) :=
  C9_resize_dims (greyFrame 0) frame4x4 [] false (by decide) (by decide)

/-- Helper: an indexed lookup with default `' '` never produces a character
that is neither in the list nor the space default. -/
theorem getDne {cm : List Char} {c : Char} (hc : c ∉ cm) (hsp : c ≠ ' ') :
    ∀ i : Nat, ¬ ((cm[i]?).getD ' ' = c) := by
  intro i h
  rcases h' : cm[i]? with _ | a
  · rw [h'] at h
    simp at h
    exact hsp h.symm
  · rw [h'] at h
    simp at h
    subst h
    exact hc (List.getElem?_mem h')

/-- Claim C3 counterexample: a 2×2 resized frame with `new_lines = true`
yields a colour buffer of 24 bytes, not `2*(2*3) + 6 = 18`: the pad condition
`(i + 1) % width == 0` fires at the end of the last row too, so a 6-byte pad
follows each of the two rows. -/
theorem C3_counterexample :
    (render_frame (ImagePipeline.mk (Resolution.Fixed 2 2) ['a'] true)
        frame4x4).colors.length = 24 ∧
    (24 : Nat) ≠ 18 := by
  decide

/-- Claim C3 (amended): for every source frame and every glyph table not
containing CR or LF, a 2×1 resized frame rendered with `new_lines = false`
yields exactly 2 characters of text and exactly 6 colour bytes; a 2×2
resized frame with `new_lines = true` yields text with exactly one embedded
CR/LF pair (6 characters in all) and a colour buffer of 24 bytes — the
source places a 6-byte zero pad after **each** of the two rows (bytes 6–11
and 18–23), including the last, rather than after the first row only as
claimed. -/
theorem C3_render_frame_layout (img img2 : DynamicImage) (cm : List Char)
    (hcr : '\r' ∉ cm) (hlf : '\n' ∉ cm) :
    ((render_frame (ImagePipeline.mk (Resolution.Fixed 2 1) cm false) img).text.length = 2 ∧
     (render_frame (ImagePipeline.mk (Resolution.Fixed 2 1) cm false) img).colors.length
        = 6) ∧
    ((render_frame (ImagePipeline.mk (Resolution.Fixed 2 2) cm true)
          img2).text.toList.count '\r' = 1 ∧
     (render_frame (ImagePipeline.mk (Resolution.Fixed 2 2) cm true)
          img2).text.toList.count '\n' = 1 ∧
     (render_frame (ImagePipeline.mk (Resolution.Fixed 2 2) cm true) img2).text.length = 6 ∧
     (render_frame (ImagePipeline.mk (Resolution.Fixed 2 2) cm true) img2).colors.length
        = 24 ∧
     ((render_frame (ImagePipeline.mk (Resolution.Fixed 2 2) cm true) img2).colors.drop
          6).take 6 = [0, 0, 0, 0, 0, 0] ∧
     (render_frame (ImagePipeline.mk (Resolution.Fixed 2 2) cm true) img2).colors.drop 18
        = [0, 0, 0, 0, 0, 0]) := by
  have h1 := getDne hcr (by decide)
  have h2 := getDne hlf (by decide)
  refine ⟨⟨?_, ?_⟩, ?_, ?_, ?_, ?_, ?_, ?_⟩ <;>
    simp [render_frame, ImagePipeline.resize, Resolution.calc, DynamicImage.into_luma8,
      DynamicImage.into_rgb8_vec, DynamicImage.rgb_chunks, ImagePipeline.to_ascii, asciiRows,
      List.range_succ, String.length, pad_chunks, List.count_append, List.count_cons, h1, h2]

/-- Witness for C3 at the glyph table `['a', 'b']` and the concrete 4×4
frame. -/
theorem C3_render_frame_layout_witness :
    ((render_frame (ImagePipeline.mk (Resolution.Fixed 2 1) ['a', 'b'] false)
          frame4x4).text.length = 2 ∧
     (render_frame (ImagePipeline.mk (Resolution.Fixed 2 1) ['a', 'b'] false)
          frame4x4).colors.length = 6) ∧
    ((render_frame (ImagePipeline.mk (Resolution.Fixed 2 2) ['a', 'b'] true)
          frame4x4).text.toList.count '\r' = 1 ∧
     (render_frame (ImagePipeline.mk (Resolution.Fixed 2 2) ['a', 'b'] true)
          frame4x4).text.toList.count '\n' = 1 ∧
     (render_frame (ImagePipeline.mk (Resolution.Fixed 2 2) ['a', 'b'] true)
          frame4x4).text.length = 6 ∧
     (render_frame (ImagePipeline.mk (Resolution.Fixed 2 2) ['a', 'b'] true)
          frame4x4).colors.length = 24 ∧
     ((render_frame (ImagePipeline.mk (Resolution.Fixed 2 2) ['a', 'b'] true)
          frame4x4).colors.drop 6).take 6 = [0, 0, 0, 0, 0, 0] ∧
     (render_frame (ImagePipeline.mk (Resolution.Fixed 2 2) ['a', 'b'] true)
          frame4x4).colors.drop 18 = [0, 0, 0, 0, 0, 0]) :=
  C3_render_frame_layout frame4x4 frame4x4 ['a', 'b'] (by decide) (by decide)

/-- Claim C1 counterexample, in the exact scenario of the claim: a 3-frame
`FrameList` whose frames render to the distinguishable texts "0", "1", "2",
`loop_playback = true`, `allow_frame_skip = false`, fps 1, clock readings
1 s, 2 s, 3 s, 4 s (four consecutive due ticks).  The produced texts are
["0", "1", "2", "2"], not ["0", "1", "2", "0"]: on the exhaustion tick the
code resets the source but performs no re-pull (`f` stays `None`), so
`render_current_frame` re-renders the **last** frame. -/
theorem C1_counterexample :
    (runTicks loopOptions false renderOk
        [1000000000, 2000000000, 3000000000, 4000000000] loopState).map
      (fun res => res.2.map (fun f => f.map RenderFrame.text))
      = some [some "0", some "1", some "2", some "2"] ∧
    (some "2" : Option String) ≠ some "0" := by
  decide

/-- Claim C1 (amended): in the 3-frame loop-replay scenario, when the source
is exhausted the tick logic rewinds the time anchor by one frame duration
and resets the `FrameSource` to its start but does **not** re-pull; that
tick re-renders the last frame, so four consecutive due ticks yield the
frames [0, 1, 2, 2], and the first replayed frame 0 arrives on the next
tick — immediately, without another full wait, thanks to the rewind: below
the fifth tick is due at the same 4 s clock reading as the fourth, and after
it the cursor stands at 1 (frame 0 was pulled from the reset source). -/
theorem C1_loop_replay :
    (runTicks loopOptions false renderOk
        [1000000000, 2000000000, 3000000000, 4000000000, 4000000000] loopState).map
      (fun res => (res.2.map (fun f => f.map RenderFrame.text), res.1.media.cursor))
      = some ([some "0", some "1", some "2", some "2", some "0"], 1) := by
  decide

/-- Claim C7: per-tick resize/ASCII failures never escape `Renderer::run`.
Part (a): for every render function that fails on every frame this tick
(modelling the external resize backend reporting an error, which the
`if let Ok` in `render_current_frame` discards), a due tick — with frame
skipping off, so exactly the render path of the claim is exercised — still
completes: it produces no `RenderFrame`, reports `should_render = true`, and
hands control to the callback, whose boolean alone decides whether the loop
continues (by the definition of `run` and part (b)).  Part (b): every value
`run` returns is `Ok(())`, for every configuration, render function,
callback and clock: the loop stops with a value only when the callback
returns `false`, and that termination is normal, never an error. -/
theorem C7_failures_never_escape :
    (∀ (opts : RenderOptions) (rf : ImagePipeline → DynamicImage → Except Error RenderFrame)
        (now : Nat) (s : RendererState),
        (∀ q img, (rf q img).toOption = none) →
        target_frame_duration_nanos opts.fps ≠ 0 →
        target_frame_duration_nanos opts.fps ≤ now - s.anchor →
        (tick opts false rf now s).map (fun t => (t.2.1, t.2.2)) = some (none, true)) ∧
    (∀ (opts : RenderOptions) (allow : Bool)
        (rf : ImagePipeline → DynamicImage → Except Error RenderFrame)
        (cb : Option RenderFrame → Bool → ImagePipeline → Bool × ImagePipeline)
        (nows : Nat → Nat) (fuel : Nat) (j : Nat)
        (s : RendererState) (r : Except Error Unit),
        run opts allow rf cb nows fuel j s = some r → r = Except.ok ()) := by
  constructor
  · intro opts rf now s hfail htgt hdue
    have h1 : time_to_send_next_frame (now - s.anchor) (target_frame_duration_nanos opts.fps)
        = some (true,
            frames_to_skip_of (now - s.anchor) (target_frame_duration_nanos opts.fps),
            anchor_advance (now - s.anchor) (target_frame_duration_nanos opts.fps)) := by
      unfold time_to_send_next_frame
      rw [if_pos hdue, if_neg htgt]
    simp only [tick, h1]
    cases hp : (s.media.next).1 with
    | some f => simp [render_current_frame, hp, hfail]
    | none =>
      cases hl : s.last_frame with
      | some lf => simp [render_current_frame, hp, hl, hfail]
      | none => simp [render_current_frame, hp, hl]
  · intro opts allow rf cb nows fuel
    induction fuel with
    | zero => intro j s r h; simp [run] at h
    | succ n ih =>
      intro j s r h
      rw [run] at h
      cases htick : tick opts allow rf (nows j) s with
      | none => rw [htick] at h; simp at h
      | some t =>
        obtain ⟨s1, frame, sr⟩ := t
        rw [htick] at h
        simp only [] at h
        split at h
        · exact ih (j + 1) _ r h
        · simp only [Option.some.injEq] at h
          exact h.symm

/-- Witness for C7: the all-failing render function on a due tick of the
loop scenario state, and a 1-iteration `run` stopped by the
always-terminate callback. -/
theorem C7_failures_never_escape_witness :
    (tick loopOptions false rfFail 1000000000 loopState).map (fun t => (t.2.1, t.2.2))
      = some (none, true) ∧
    (Except.ok () : Except Error Unit) = Except.ok () :=
  ⟨C7_failures_never_escape.1 loopOptions rfFail 1000000000 loopState (fun q img => rfl)
      (by decide) (by decide),
   C7_failures_never_escape.2 loopOptions false rfFail cbStop (fun j => 1000000000) 1 0
      loopState (Except.ok ()) (by rfl)⟩

end IV2C
